import Mathlib

/-!
Shallow embedding of the Fitness-Tracker dashboard variants: the activity
data model, day-of-week normalization (`pd.Categorical`), the statistics
(column means, day-over-day deltas), the two advice selectors, the
page-level guards of the individual variants, and the CSV save/reload
round trip.
-/

namespace FitnessTracker

/-- One row of the activity table: the `Day`, `Steps`, `Calories` columns. -/
structure ActivityRecord where
  day : String
  steps : ℤ
  calories : ℤ
deriving DecidableEq, Repr

/-- Weekday categories passed to `pd.Categorical` in every variant, in order
`Monday .. Sunday`. -/
def weekdays : List String :=
  ["Monday", "Tuesday", "Wednesday", "Thursday", "Friday", "Saturday", "Sunday"]

/-- Rank of a day name: its position among the `pd.Categorical` categories
(`Monday` = 0 … `Sunday` = 6), `none` when the string is not one of the
seven category names. -/
def dayRank (d : String) : Option ℕ :=
  weekdays.indexOf? d

/-- Effect of `pd.Categorical(col, categories=weekdays)` on one stored value:
a recognized weekday name is kept; any other string is replaced by the
missing value `NaN`, modelled as `none`. -/
def normalizeDay (d : String) : Option String :=
  if weekdays.contains d then some d else none

/-- A row after the day normalization: the `Day` cell may be missing (`NaN`). -/
structure CatRecord where
  day : Option String
  steps : ℤ
  calories : ℤ
deriving DecidableEq, Repr

/-- Apply the `pd.Categorical` day normalization to every row of the table. -/
def applyCategorical (rs : List ActivityRecord) : List CatRecord :=
  rs.map fun r => ⟨normalizeDay r.day, r.steps, r.calories⟩

/-- A CSV cell as pandas sees it after type inference: a string cell or an
integer cell (`read_csv` infers the numeric columns as `int64`). -/
inductive Cell where
  | str (s : String)
  | int (n : ℤ)
deriving DecidableEq, Repr

/-- OtSo `save_to_csv`: `df.to_csv("data.csv", index=False)` writes the header
`Day,Steps,Calories` and one row per record, in order, with no index column.
Rows are modelled structurally; pandas quoting makes the cell structure
lossless. -/
def save_to_csv (rs : List ActivityRecord) : List (List Cell) :=
  rs.map fun r => [Cell.str r.day, Cell.int r.steps, Cell.int r.calories]

/-- Parse one persisted CSV row back into a record: `Day` a string cell,
`Steps` and `Calories` integer cells; anything else is a parse failure. -/
def parseRow (row : List Cell) : Option ActivityRecord :=
  match row with
  | [Cell.str d, Cell.int s, Cell.int c] => some ⟨d, s, c⟩
  | _ => none

/-- pandas `read_csv` on the persisted file: every row must parse. -/
def read_csv : List (List Cell) → Option (List ActivityRecord)
  | [] => some []
  | row :: rows =>
    match parseRow row, read_csv rows with
    | some r, some rest => some (r :: rest)
    | _, _ => none

/-- 1pc4 `refresh_from_csv` (also the startup load of every `data.csv`
variant): `pd.read_csv` followed by the `pd.Categorical` day normalization. -/
def refresh_from_csv (rows : List (List Cell)) : Option (List CatRecord) :=
  (read_csv rows).map applyCategorical

/-- The `Steps` column of the table. -/
def stepsCol (rs : List ActivityRecord) : List ℤ := rs.map (·.steps)

/-- The `Calories` column of the table. -/
def caloriesCol (rs : List ActivityRecord) : List ℤ := rs.map (·.calories)

/-- pandas `Series.mean()`: the arithmetic mean `sum / count`; on an empty
series pandas returns the `NaN` sentinel, modelled as `none`. -/
def seriesMean (l : List ℤ) : Option ℚ :=
  if l.isEmpty then none else some ((l.sum : ℚ) / l.length)

/-- Python `int()` conversion applied to a real value: truncation toward
zero (floor for non-negative arguments, ceiling for negative ones). -/
def pyInt (q : ℚ) : ℤ :=
  if 0 ≤ q then ⌊q⌋ else ⌈q⌉

/-- Day-over-day step delta `data.iloc[-1]["Steps"] - data.iloc[-2]["Steps"]`,
defined only when the table has at least two rows. -/
def stepsDiff (data : List ActivityRecord) : Option ℤ :=
  match data.reverse with
  | y :: p :: _ => some (y.steps - p.steps)
  | _ => none

/-- Message buckets of the delta policy: the success, danger and neutral
("consistent performance") advice cards. -/
inductive DeltaAdvice where
  | success
  | danger
  | consistent
deriving DecidableEq, Repr

/-- Delta-policy branch shared by the insights pages of 1pc4 / SNbo / SfUI /
EUrd / RSsT: `diff_steps > 500` gives the success message, `diff_steps < -500`
the danger message, anything else the neutral "consistent" message. -/
def adviceFor (diffSteps : ℤ) : DeltaAdvice :=
  if 500 < diffSteps then DeltaAdvice.success
  else if diffSteps < -500 then DeltaAdvice.danger
  else DeltaAdvice.consistent

/-- Message buckets of the ratio policy: below-average warning, above-average
success, neutral. -/
inductive RatioAdvice where
  | below
  | above
  | neutral
deriving DecidableEq, Repr

/-- Ratio-policy selector `update_advice` of 9VqS / 4EJM (also E7i6 / WaWg):
`steps < avg_steps * 0.8` gives the below-average warning,
`steps > avg_steps * ub` the above-average success (`ub` is 1.1 in 9VqS and
1.2 in 4EJM; the spec treats the upper bound as configurable), anything else
the neutral message. The float constants are modelled as exact rationals. -/
def update_advice (steps avg : ℤ) (ub : ℚ) : RatioAdvice :=
  if (steps : ℚ) < (avg : ℚ) * (4 / 5) then RatioAdvice.below
  else if (avg : ℚ) * ub < (steps : ℚ) then RatioAdvice.above
  else RatioAdvice.neutral

/-- A renderable line-chart description (`px.line`): x = day labels,
y = steps, plus the fixed trace color. -/
structure LineChartSpec where
  x : List (Option String)
  y : List ℤ
  color : String
deriving DecidableEq, Repr

/-- A renderable bar-chart description (`px.bar`): x = day labels,
y = calories, plus the fixed trace color. -/
structure BarChartSpec where
  x : List (Option String)
  y : List ℤ
  color : String
deriving DecidableEq, Repr

/-- Chart builder `make_charts` of 1pc4 / SNbo / SfUI / OtSo: the steps line
chart and the calories bar chart over the current table; `px.line` and
`px.bar` accept an empty table and produce an empty figure. -/
def make_charts (data : List CatRecord) : LineChartSpec × BarChartSpec :=
  (⟨data.map (·.day), data.map (·.steps), "#ffeb3b"⟩,
   ⟨data.map (·.day), data.map (·.calories), "#e53935"⟩)

/-- A parsed upload, as produced by `pd.read_csv` on the decoded payload:
its column names together with its rows. -/
structure UploadTable where
  cols : List String
  rows : List (List Cell)
deriving DecidableEq, Repr

/-- Required-columns check `{"Day", "Steps", "Calories"}.issubset(df.columns)`
performed by app.py, 9UCN, IF3H, dKZY and Ms8I. -/
def hasRequiredColumns (t : UploadTable) : Bool :=
  ["Day", "Steps", "Calories"].all fun c => t.cols.contains c

namespace App

/-- app.py `parse_and_store_data`, the callback feeding
`dcc.Store("stored-data")`: returns the parsed table on success; on a missing
upload, a non-csv filename, or missing required columns it prints an error to
the server console and returns `None`. -/
def parse_and_store_data (contents : Option UploadTable) (filenameHasCsv : Bool) :
    Option UploadTable :=
  match contents with
  | none => none
  | some t =>
    if filenameHasCsv then
      if hasRequiredColumns t then some t else none
    else none

/-- Dash store semantics: the value returned by `parse_and_store_data`
replaces the data held by `dcc.Store("stored-data")`, whatever it held
before (returning `None` overwrites the store with `None`). -/
def storeAfterUpload (prev : Option UploadTable) (contents : Option UploadTable)
    (filenameHasCsv : Bool) : Option UploadTable :=
  parse_and_store_data contents filenameHasCsv

end App

namespace V9UCN

/-- 9UCN `parse_contents`: returns `(table, no message)` on success, or
`(None, error message)` when the filename is not a csv or a required column
is missing. -/
def parse_contents (t : UploadTable) (filenameHasCsv : Bool) :
    Option UploadTable × Option String :=
  if filenameHasCsv then
    if hasRequiredColumns t then (some t, none)
    else (none, some "Error: CSV must contain Day, Steps, and Calories columns.")
  else (none, some "Error: Please upload a CSV file.")

/-- 9UCN `update_output`, the upload callback: its first output replaces the
data of `dcc.Store("stored-data")`; its second is the error alert rendered in
the dashboard body, if any. -/
def update_output (contents : Option UploadTable) (filenameHasCsv : Bool) :
    Option UploadTable × Option String :=
  match contents with
  | none => (none, none)
  | some t =>
    match parse_contents t filenameHasCsv with
    | (some df, _) => (some df, none)
    | (none, msg) => (none, msg)

/-- What the 9UCN insights callback renders. -/
inductive InsightsView where
  | noDataPrompt
  | needTwoDays
  | comparison (stepsDiff caloriesDiff : ℤ)
deriving DecidableEq, Repr

/-- 9UCN `update_insights`: no stored data gives the upload prompt;
`len(df) < 2` gives the "need at least two days of data" card; otherwise the
day-over-day comparison of the last two rows. -/
def update_insights (stored : Option (List ActivityRecord)) : InsightsView :=
  match stored with
  | none => InsightsView.noDataPrompt
  | some df =>
    if df.length < 2 then InsightsView.needTwoDays
    else
      match df.reverse with
      | y :: p :: _ => InsightsView.comparison (y.steps - p.steps) (y.calories - p.calories)
      | _ => InsightsView.needTwoDays

end V9UCN

namespace V1pc4

/-- 1pc4 `dashboard_page` summary cards: `int(data["Steps"].mean())` and
`int(data["Calories"].mean())` with no empty-data guard; on an empty table
the mean is `NaN` and `int(NaN)` raises `ValueError`, modelled as `.error`. -/
def dashboard_page (data : List ActivityRecord) : Except String (ℤ × ℤ) :=
  match seriesMean (stepsCol data), seriesMean (caloriesCol data) with
  | some ms, some mc => Except.ok (pyInt ms, pyInt mc)
  | _, _ => Except.error "cannot convert float NaN to integer"

/-- 1pc4 `insights_page`: reads `data.iloc[-1]` and `data.iloc[-2]` with no
length guard, then classifies the step delta; with fewer than two rows the
positional access raises `IndexError`, modelled as `.error`. -/
def insights_page (data : List ActivityRecord) :
    Except String (ℤ × ℤ × DeltaAdvice) :=
  match data.reverse with
  | y :: p :: _ =>
    Except.ok (y.steps - p.steps, y.calories - p.calories,
      adviceFor (y.steps - p.steps))
  | _ => Except.error "single positional indexer is out-of-bounds"

end V1pc4

namespace SfUI

/-- What the SfUI dashboard route renders. -/
inductive DashboardView where
  | uploadPrompt
  | stats (avgSteps avgCalories : ℤ)
deriving DecidableEq, Repr

/-- SfUI `dashboard_page`: `if data is None or len(data) == 0` gives the
upload-prompt card without computing any statistic; otherwise the truncated
means are shown. -/
def dashboard_page (data : List ActivityRecord) : DashboardView :=
  if data.isEmpty then DashboardView.uploadPrompt
  else
    match seriesMean (stepsCol data), seriesMean (caloriesCol data) with
    | some ms, some mc => DashboardView.stats (pyInt ms) (pyInt mc)
    | _, _ => DashboardView.uploadPrompt

/-- What the SfUI insights route renders when it does not raise. -/
inductive InsightsView where
  | noData
  | comparison (stepsDiff caloriesDiff : ℤ) (advice : DeltaAdvice)
deriving DecidableEq, Repr

/-- SfUI `insights_page`: empty data gives the "no data" card; otherwise the
page reads `iloc[-1]` and `iloc[-2]` (raising on a single row) and classifies
the delta. -/
def insights_page (data : List ActivityRecord) : Except String InsightsView :=
  if data.isEmpty then Except.ok InsightsView.noData
  else
    match data.reverse with
    | y :: p :: _ =>
      Except.ok (InsightsView.comparison (y.steps - p.steps)
        (y.calories - p.calories) (adviceFor (y.steps - p.steps)))
    | _ => Except.error "single positional indexer is out-of-bounds"

end SfUI

namespace OtSo

/-- OtSo auto-calorie rule `int(int(steps) * 0.05)`: the step count times
0.05, truncated toward zero by `int()`. The float literal 0.05 is modelled by
the exact rational 5/100; for the representable step counts the float product
truncates to the same integer. -/
def auto_calories (steps : ℤ) : ℤ :=
  pyInt ((steps : ℚ) * (5 / 100))

/-- OtSo `add_entry`: before any click the stored list is returned unchanged;
a submission with a falsy field (`not day or not steps`, that is a missing or
empty day, or missing or zero steps) is rejected with a warning and leaves the
data unchanged; otherwise the new row, with auto-computed calories, is
appended at the end. The second component is the status message. -/
def add_entry (n_clicks : ℕ) (day : Option String) (steps : Option ℤ)
    (current : List ActivityRecord) : List ActivityRecord × String :=
  if n_clicks = 0 then (current, "")
  else
    match day, steps with
    | some d, some n =>
      if d = "" ∨ n = 0 then (current, "Please fill in both fields.")
      else (current ++ [⟨d, n, auto_calories n⟩], "Added entry")
    | _, _ => (current, "Please fill in both fields.")

end OtSo

/-- The dummy week hard-coded in XneI (the dataset of the spec example):
steps 8500, 9200, 7800, 10500, 12300, 15200, 9500 over the seven canonical
weekdays. -/
def xneiData : List ActivityRecord :=
  [⟨"Monday", 8500, 350⟩, ⟨"Tuesday", 9200, 380⟩, ⟨"Wednesday", 7800, 320⟩,
   ⟨"Thursday", 10500, 420⟩, ⟨"Friday", 12300, 500⟩, ⟨"Saturday", 15200, 610⟩,
   ⟨"Sunday", 9500, 390⟩]

/-- A well-formed upload with all three required columns. -/
def goodTable : UploadTable :=
  ⟨["Day", "Steps", "Calories"], [[Cell.str "Monday", Cell.int 1000, Cell.int 50]]⟩

/-- An upload whose parsed table lacks the `Calories` column. -/
def missingCaloriesTable : UploadTable :=
  ⟨["Day", "Steps"], [[Cell.str "Monday", Cell.int 1000]]⟩

/-- A two-row dataset over recognized weekdays. -/
def twoRowData : List ActivityRecord :=
  [⟨"Monday", 1000, 100⟩, ⟨"Tuesday", 2000, 200⟩]

/-- A single-row dataset. -/
def oneRowData : List ActivityRecord :=
  [⟨"Monday", 100, 10⟩]

/-- A record whose day string is not one of the seven weekday categories. -/
def holidayData : List ActivityRecord :=
  [⟨"Holiday", 1000, 50⟩]

/-! Helper lemmas shared by the claim theorems. -/

theorem adviceFor_success_iff (d : ℤ) :
    adviceFor d = DeltaAdvice.success ↔ 500 < d := by
  unfold adviceFor
  split_ifs with h1 h2 <;> simp_all

theorem adviceFor_danger_iff (d : ℤ) :
    adviceFor d = DeltaAdvice.danger ↔ d < -500 := by
  unfold adviceFor
  split_ifs with h1 h2 <;> simp_all <;> omega

theorem adviceFor_consistent_iff (d : ℤ) :
    adviceFor d = DeltaAdvice.consistent ↔ (-500 ≤ d ∧ d ≤ 500) := by
  unfold adviceFor
  split_ifs with h1 h2 <;> simp_all <;> omega

theorem read_csv_save_to_csv (rs : List ActivityRecord) :
    read_csv (save_to_csv rs) = some rs := by
  induction rs with
  | nil => rfl
  | cons r t ih => simp [save_to_csv, read_csv, parseRow] at ih ⊢ <;> simp [ih]

theorem applyCategorical_recognized (rs : List ActivityRecord) :
    (∀ r ∈ rs, weekdays.contains r.day = true) →
    applyCategorical rs = rs.map fun r => CatRecord.mk (some r.day) r.steps r.calories := by
  induction rs with
  | nil => intro _; rfl
  | cons r t ih =>
    intro h
    have hr : weekdays.contains r.day = true := h r (List.mem_cons_self r t)
    have ht : ∀ x ∈ t, weekdays.contains x.day = true :=
      fun x hx => h x (List.mem_cons_of_mem r hx)
    have ih' := ih ht
    have hmem : r.day ∈ weekdays := by simpa using hr
    simp only [applyCategorical, List.map_cons] at ih' ⊢
    rw [show normalizeDay r.day = some r.day from by simp [normalizeDay, hmem]]
    rw [ih']

/-! Claim theorems and their witnesses. -/

/-- C1, counterexample: an upload missing the `Calories` column makes
`parse_and_store_data` return `None`, which Dash then writes into
`dcc.Store("stored-data")` — so a store that previously held a good table no
longer holds it after the failed load, contradicting the claim that the
previously-held dataset is left unchanged. -/
theorem C1_counterexample :
    App.storeAfterUpload (some goodTable) (some missingCaloriesTable) true = none ∧
    App.storeAfterUpload (some goodTable) (some missingCaloriesTable) true ≠ some goodTable := by
  decide

/-- C1, amended: an upload whose table lacks a required column produces no
dataset (`parse_and_store_data` returns `None`, and 9UCN additionally
surfaces a user-visible error alert), but the `dcc.Store` is overwritten with
`None` — the previously-held dataset is cleared, not retained. -/
theorem C1_missing_columns_clears_store (prev : Option UploadTable)
    (t : UploadTable) (h : hasRequiredColumns t = false) :
    App.parse_and_store_data (some t) true = none ∧
    App.storeAfterUpload prev (some t) true = none ∧
    V9UCN.update_output (some t) true =
      (none, some "Error: CSV must contain Day, Steps, and Calories columns.") := by
  refine ⟨?_, ?_, ?_⟩ <;>
    simp [App.parse_and_store_data, App.storeAfterUpload, V9UCN.update_output,
      V9UCN.parse_contents, h]

/-- C1 witness: the amended statement at a concrete store and upload. -/
theorem C1_missing_columns_clears_store_witness :
    hasRequiredColumns missingCaloriesTable = false ∧
    (App.parse_and_store_data (some missingCaloriesTable) true = none ∧
     App.storeAfterUpload (some goodTable) (some missingCaloriesTable) true = none ∧
     V9UCN.update_output (some missingCaloriesTable) true =
       (none, some "Error: CSV must contain Day, Steps, and Calories columns.")) :=
  ⟨by decide,
   C1_missing_columns_clears_store (some goodTable) missingCaloriesTable (by decide)⟩

/-- C2: on any dataset with at least two rows, with `stepsDiff` the last
row steps minus the second-to-last row steps, the 1pc4 insights page renders
`adviceFor stepsDiff`, and the delta policy picks the success message iff
`stepsDiff > 500`, the danger message iff `stepsDiff < -500`, and the neutral
"consistent" message otherwise — in particular at both boundary values. -/
theorem C2_delta_policy (data : List ActivityRecord) (d : ℤ)
    (hd : stepsDiff data = some d) :
    (∃ cd, V1pc4.insights_page data = Except.ok (d, cd, adviceFor d)) ∧
    (adviceFor d = DeltaAdvice.success ↔ 500 < d) ∧
    (adviceFor d = DeltaAdvice.danger ↔ d < -500) ∧
    (adviceFor d = DeltaAdvice.consistent ↔ (-500 ≤ d ∧ d ≤ 500)) ∧
    adviceFor 500 = DeltaAdvice.consistent ∧
    adviceFor (-500) = DeltaAdvice.consistent := by
  refine ⟨?_, adviceFor_success_iff d, adviceFor_danger_iff d,
    adviceFor_consistent_iff d, by decide, by decide⟩
  unfold stepsDiff at hd
  unfold V1pc4.insights_page
  rcases hrev : data.reverse with _ | ⟨y, _ | ⟨p, rest⟩⟩ <;> rw [hrev] at hd
  · exact absurd hd (by simp)
  · exact absurd hd (by simp)
  · have hdy : y.steps - p.steps = d := by
      simpa using hd
    refine ⟨y.calories - p.calories, ?_⟩
    show Except.ok (y.steps - p.steps, y.calories - p.calories,
      adviceFor (y.steps - p.steps)) = Except.ok (d, y.calories - p.calories, adviceFor d)
    rw [hdy]

/-- C2 witness: the theorem applied to a concrete two-row dataset with
delta 1000. -/
theorem C2_delta_policy_witness :
    stepsDiff twoRowData = some 1000 ∧
    ((∃ cd, V1pc4.insights_page twoRowData = Except.ok (1000, cd, adviceFor 1000)) ∧
     (adviceFor 1000 = DeltaAdvice.success ↔ 500 < (1000 : ℤ)) ∧
     (adviceFor 1000 = DeltaAdvice.danger ↔ (1000 : ℤ) < -500) ∧
     (adviceFor 1000 = DeltaAdvice.consistent ↔ (-500 ≤ (1000 : ℤ) ∧ (1000 : ℤ) ≤ 500)) ∧
     adviceFor 500 = DeltaAdvice.consistent ∧
     adviceFor (-500) = DeltaAdvice.consistent) :=
  ⟨by decide, C2_delta_policy twoRowData 1000 (by decide)⟩

/-- C3: for a positive (hence non-zero, since steps are non-negative) mean
and an upper bound of 1.1 or 1.2, the ratio policy picks the below-average
warning iff `steps / meanSteps < 0.8`, the above-average success iff the
ratio exceeds the upper bound, and the neutral message otherwise; the
boundary ratio 0.8 deterministically yields the neutral message. -/
theorem C3_ratio_policy (steps avg : ℤ) (ub : ℚ) (havg : 0 < avg)
    (hub : ub = 11 / 10 ∨ ub = 6 / 5) :
    (update_advice steps avg ub = RatioAdvice.below ↔ (steps : ℚ) / avg < 4 / 5) ∧
    (update_advice steps avg ub = RatioAdvice.above ↔ ub < (steps : ℚ) / avg) ∧
    (update_advice steps avg ub = RatioAdvice.neutral ↔
      (4 / 5 ≤ (steps : ℚ) / avg ∧ (steps : ℚ) / avg ≤ ub)) ∧
    ((steps : ℚ) / avg = 4 / 5 → update_advice steps avg ub = RatioAdvice.neutral) := by
  have ha : (0 : ℚ) < (avg : ℚ) := by exact_mod_cast havg
  have hub' : (4 / 5 : ℚ) ≤ ub := by
    rcases hub with h | h <;> rw [h] <;> norm_num
  have hlt : ((steps : ℚ) < (avg : ℚ) * (4 / 5)) ↔ (steps : ℚ) / avg < 4 / 5 := by
    rw [div_lt_iff ha, mul_comm]
  have hgt : ((avg : ℚ) * ub < (steps : ℚ)) ↔ ub < (steps : ℚ) / avg := by
    rw [lt_div_iff ha, mul_comm]
  unfold update_advice
  split_ifs with h1 h2
  · have hr1 : (steps : ℚ) / avg < 4 / 5 := hlt.mp h1
    have hr2 : ¬ ub < (steps : ℚ) / avg := fun hx => absurd hr1 (by linarith)
    exact ⟨iff_of_true rfl hr1, iff_of_false (by decide) hr2,
      iff_of_false (by decide) (fun hx => absurd hr1 (by linarith [hx.1])),
      fun hq => absurd hr1 (by rw [hq]; norm_num)⟩
  · have hr2 : ub < (steps : ℚ) / avg := hgt.mp h2
    have hr1 : ¬ (steps : ℚ) / avg < 4 / 5 := fun hx => h1 (hlt.mpr hx)
    exact ⟨iff_of_false (by decide) hr1, iff_of_true rfl hr2,
      iff_of_false (by decide) (fun hx => absurd hr2 (by linarith [hx.2])),
      fun hq => absurd hr2 (by rw [hq]; exact not_lt.mpr hub')⟩
  · have hr1 : ¬ (steps : ℚ) / avg < 4 / 5 := fun hx => h1 (hlt.mpr hx)
    have hr2 : ¬ ub < (steps : ℚ) / avg := fun hx => h2 (hgt.mpr hx)
    exact ⟨iff_of_false (by decide) hr1, iff_of_false (by decide) hr2,
      iff_of_true rfl ⟨le_of_not_lt hr1, le_of_not_lt hr2⟩, fun _ => rfl⟩

/-- C3 witness: the theorem applied at steps 100, mean 100, upper bound 1.1
(ratio exactly 1, the neutral bucket). -/
theorem C3_ratio_policy_witness :
    (0 : ℤ) < 100 ∧ ((11 / 10 : ℚ) = 11 / 10 ∨ (11 / 10 : ℚ) = 6 / 5) ∧
    ((update_advice 100 100 (11 / 10) = RatioAdvice.below ↔
        ((100 : ℤ) : ℚ) / ((100 : ℤ) : ℚ) < 4 / 5) ∧
     (update_advice 100 100 (11 / 10) = RatioAdvice.above ↔
        (11 / 10 : ℚ) < ((100 : ℤ) : ℚ) / ((100 : ℤ) : ℚ)) ∧
     (update_advice 100 100 (11 / 10) = RatioAdvice.neutral ↔
        (4 / 5 ≤ ((100 : ℤ) : ℚ) / ((100 : ℤ) : ℚ) ∧
         ((100 : ℤ) : ℚ) / ((100 : ℤ) : ℚ) ≤ 11 / 10)) ∧
     (((100 : ℤ) : ℚ) / ((100 : ℤ) : ℚ) = 4 / 5 →
        update_advice 100 100 (11 / 10) = RatioAdvice.neutral)) :=
  ⟨by decide, Or.inl rfl, C3_ratio_policy 100 100 (11 / 10) (by decide) (Or.inl rfl)⟩

/-- C4: on any dataset with at least one row the mean computation never
raises — `Series.mean` yields a value, equal to the exact arithmetic mean
`sum / count` of the column — and the integer truncation appears only when
the 1pc4 dashboard formats the cards, applied to the exact mean. -/
theorem C4_mean_is_exact (rs : List ActivityRecord) (h : rs ≠ []) :
    (seriesMean (stepsCol rs)).isSome = true ∧
    (seriesMean (caloriesCol rs)).isSome = true ∧
    seriesMean (stepsCol rs) = some (((stepsCol rs).sum : ℚ) / rs.length) ∧
    seriesMean (caloriesCol rs) = some (((caloriesCol rs).sum : ℚ) / rs.length) ∧
    V1pc4.dashboard_page rs =
      Except.ok (pyInt (((stepsCol rs).sum : ℚ) / rs.length),
        pyInt (((caloriesCol rs).sum : ℚ) / rs.length)) := by
  have hs : (stepsCol rs).isEmpty = false := by
    cases rs with
    | nil => exact absurd rfl h
    | cons a t => simp [stepsCol]
  have hc : (caloriesCol rs).isEmpty = false := by
    cases rs with
    | nil => exact absurd rfl h
    | cons a t => simp [caloriesCol]
  have hls : (stepsCol rs).length = rs.length := List.length_map rs _
  have hlc : (caloriesCol rs).length = rs.length := List.length_map rs _
  have hms : seriesMean (stepsCol rs) = some (((stepsCol rs).sum : ℚ) / rs.length) := by
    rw [seriesMean, hs, if_neg (by simp), hls]
  have hmc : seriesMean (caloriesCol rs) = some (((caloriesCol rs).sum : ℚ) / rs.length) := by
    rw [seriesMean, hc, if_neg (by simp), hlc]
  refine ⟨by rw [hms]; rfl, by rw [hmc]; rfl, hms, hmc, ?_⟩
  rw [V1pc4.dashboard_page, hms, hmc]

/-- C4 witness: the theorem applied to the concrete XneI week. -/
theorem C4_mean_is_exact_witness :
    xneiData ≠ [] ∧
    ((seriesMean (stepsCol xneiData)).isSome = true ∧
     (seriesMean (caloriesCol xneiData)).isSome = true ∧
     seriesMean (stepsCol xneiData) =
       some (((stepsCol xneiData).sum : ℚ) / xneiData.length) ∧
     seriesMean (caloriesCol xneiData) =
       some (((caloriesCol xneiData).sum : ℚ) / xneiData.length) ∧
     V1pc4.dashboard_page xneiData =
       Except.ok (pyInt (((stepsCol xneiData).sum : ℚ) / xneiData.length),
         pyInt (((caloriesCol xneiData).sum : ℚ) / xneiData.length))) :=
  ⟨by decide, C4_mean_is_exact xneiData (by decide)⟩

/-- C5, counterexample: on a successfully loaded one-row dataset the 1pc4
dashboard renders, but the 1pc4 insights page does not report an
insufficient-data message — the unguarded `data.iloc[-2]` raises an
out-of-bounds `IndexError`. -/
theorem C5_counterexample :
    V1pc4.dashboard_page oneRowData = Except.ok (100, 10) ∧
    V1pc4.insights_page oneRowData =
      Except.error "single positional indexer is out-of-bounds" := by
  refine ⟨?_, rfl⟩
  have e1 : seriesMean (stepsCol oneRowData) = some 100 := by
    norm_num [seriesMean, stepsCol, oneRowData]
  have e2 : seriesMean (caloriesCol oneRowData) = some 10 := by
    norm_num [seriesMean, caloriesCol, oneRowData]
  rw [V1pc4.dashboard_page, e1, e2]
  norm_num [pyInt]

/-- C5, amended: on a one-row dataset the dashboard statistics are computed
without error and the 9UCN insights callback substitutes the
"need at least two days of data" card for the delta, while the unguarded
1pc4 insights page raises an out-of-bounds error instead of reporting a
message. -/
theorem C5_single_row_insights (rs : List ActivityRecord) (h : rs.length = 1) :
    V9UCN.update_insights (some rs) = V9UCN.InsightsView.needTwoDays ∧
    (∃ avgSteps avgCalories,
      V1pc4.dashboard_page rs = Except.ok (avgSteps, avgCalories)) ∧
    V1pc4.insights_page rs =
      Except.error "single positional indexer is out-of-bounds" := by
  obtain ⟨r, rfl⟩ : ∃ r, rs = [r] := List.length_eq_one.mp h
  refine ⟨?_, ⟨pyInt ((r.steps : ℚ) / 1), pyInt ((r.calories : ℚ) / 1), ?_⟩, ?_⟩
  · rfl
  · show (match seriesMean (stepsCol [r]), seriesMean (caloriesCol [r]) with
      | some ms, some mc => Except.ok (pyInt ms, pyInt mc)
      | _, _ => Except.error "cannot convert float NaN to integer") = _
    simp [stepsCol, caloriesCol, seriesMean]
  · rfl

/-- C5 witness: the amended statement at a concrete one-row dataset. -/
theorem C5_single_row_insights_witness :
    oneRowData.length = 1 ∧
    (V9UCN.update_insights (some oneRowData) = V9UCN.InsightsView.needTwoDays ∧
     (∃ avgSteps avgCalories,
       V1pc4.dashboard_page oneRowData = Except.ok (avgSteps, avgCalories)) ∧
     V1pc4.insights_page oneRowData =
       Except.error "single positional indexer is out-of-bounds") :=
  ⟨by decide, C5_single_row_insights oneRowData (by decide)⟩

/-- C6, counterexample: on the empty dataset the 1pc4 dashboard does not
degrade to a blank widget — `int(data["Steps"].mean())` converts the `NaN`
sentinel and raises `ValueError`. -/
theorem C6_counterexample :
    V1pc4.dashboard_page ([] : List ActivityRecord) =
      Except.error "cannot convert float NaN to integer" := rfl

/-- C6, amended: on the empty dataset `Series.mean` returns the `NaN`
"no data" sentinel rather than raising, the chart builder produces an
empty-but-valid spec, and the guarded SfUI pages degrade to their no-data
widgets; but the unguarded 1pc4 dashboard converts the sentinel with `int()`
and raises instead of degrading. -/
theorem C6_empty_dataset :
    seriesMean ([] : List ℤ) = none ∧
    make_charts ([] : List CatRecord) =
      (⟨[], [], "#ffeb3b"⟩, ⟨[], [], "#e53935"⟩) ∧
    SfUI.dashboard_page ([] : List ActivityRecord) = SfUI.DashboardView.uploadPrompt ∧
    SfUI.insights_page ([] : List ActivityRecord) = Except.ok SfUI.InsightsView.noData ∧
    V1pc4.dashboard_page ([] : List ActivityRecord) =
      Except.error "cannot convert float NaN to integer" :=
  ⟨rfl, rfl, rfl, rfl, rfl⟩

/-- C7, counterexample: a record whose day string is not a recognized weekday
("Holiday") does not survive the save/reload round trip — the reload's
`pd.Categorical` replaces the day value with `NaN`, so the loaded sequence is
not equal to the written one. -/
theorem C7_counterexample :
    refresh_from_csv (save_to_csv holidayData) = some [⟨none, 1000, 50⟩] ∧
    refresh_from_csv (save_to_csv holidayData) ≠ some [⟨some "Holiday", 1000, 50⟩] := by
  decide

/-- C7, amended: writing a dataset to the persisted CSV format and loading it
back yields an equal sequence of records (same day, steps, calories, same
row order) whenever every day value is one of the seven recognized weekday
names; the raw CSV parse is always the identity, and only the `Day` ordering
normalization on reload can differ, replacing unrecognized day strings with
the missing value. -/
theorem C7_roundtrip_recognized_days (rs : List ActivityRecord)
    (h : ∀ r ∈ rs, weekdays.contains r.day = true) :
    read_csv (save_to_csv rs) = some rs ∧
    refresh_from_csv (save_to_csv rs) =
      some (rs.map fun r => CatRecord.mk (some r.day) r.steps r.calories) := by
  have h1 := read_csv_save_to_csv rs
  refine ⟨h1, ?_⟩
  rw [refresh_from_csv, h1]
  simp only [Option.map_some']
  rw [applyCategorical_recognized rs h]

/-- C7 witness: the amended round trip at a concrete two-row dataset. -/
theorem C7_roundtrip_recognized_days_witness :
    (∀ r ∈ twoRowData, weekdays.contains r.day = true) ∧
    (read_csv (save_to_csv twoRowData) = some twoRowData ∧
     refresh_from_csv (save_to_csv twoRowData) =
       some (twoRowData.map fun r => CatRecord.mk (some r.day) r.steps r.calories)) :=
  ⟨by decide, C7_roundtrip_recognized_days twoRowData (by decide)⟩

/-- C8, counterexample: for the XneI week with steps 8500, 9200, 7800, 10500,
12300, 15200, 9500 the computed mean rounds to 10429, not to the claimed
10400. -/
theorem C8_counterexample :
    (seriesMean (stepsCol xneiData)).map (fun q => round q) = some 10429 ∧
    (seriesMean (stepsCol xneiData)).map (fun q => round q) ≠ some 10400 := by
  have e : seriesMean (stepsCol xneiData) = some (73000 / 7) := by
    norm_num [seriesMean, stepsCol, xneiData]
  have hr : round ((73000 : ℚ) / 7) = 10429 := by
    rw [round_eq]
    norm_num
  rw [e]
  simp only [Option.map_some', hr]
  norm_num

/-- C8, amended: for the XneI week the computed `meanSteps` is exactly
73000 / 7 (about 10428.57); it shows as 10429 after rounding to the nearest
integer (the app.py display) and as 10428 after `int()` truncation (the
1pc4 / Dic7 / SfUI displays). -/
theorem C8_week_mean :
    seriesMean (stepsCol xneiData) = some (73000 / 7) ∧
    (seriesMean (stepsCol xneiData)).map (fun q => round q) = some 10429 ∧
    (seriesMean (stepsCol xneiData)).map pyInt = some 10428 := by
  have e : seriesMean (stepsCol xneiData) = some (73000 / 7) := by
    norm_num [seriesMean, stepsCol, xneiData]
  have hr : round ((73000 : ℚ) / 7) = 10429 := by
    rw [round_eq]
    norm_num
  have ht : pyInt ((73000 : ℚ) / 7) = 10428 := by
    rw [pyInt, if_pos (by norm_num)]
    norm_num
  rw [e]
  simp only [Option.map_some', hr, ht]
  exact ⟨trivial, trivial, trivial⟩

/-- C9, counterexample: a record with the unrecognized day string "Funday"
does not retain its day value through normalization — `pd.Categorical`
replaces it with the missing value `NaN`. -/
theorem C9_counterexample :
    applyCategorical [⟨"Funday", 1000, 50⟩] = [⟨none, 1000, 50⟩] ∧
    (applyCategorical [⟨"Funday", 1000, 50⟩]).map CatRecord.day ≠ [some "Funday"] := by
  decide

/-- C9, amended: the seven recognized weekday names carry the fixed sort
ranks Monday = 0 through Sunday = 6 and are kept by normalization, while any
unrecognized day string is replaced by the missing value (`NaN`) rather than
passed through. -/
theorem C9_day_normalization (d : String) :
    dayRank "Monday" = some 0 ∧ dayRank "Tuesday" = some 1 ∧
    dayRank "Wednesday" = some 2 ∧ dayRank "Thursday" = some 3 ∧
    dayRank "Friday" = some 4 ∧ dayRank "Saturday" = some 5 ∧
    dayRank "Sunday" = some 6 ∧
    (weekdays.contains d = true → normalizeDay d = some d) ∧
    (weekdays.contains d = false → normalizeDay d = none) := by
  refine ⟨by decide, by decide, by decide, by decide, by decide, by decide, by decide,
    fun h => ?_, fun h => ?_⟩
  · have hmem : d ∈ weekdays := by simpa using h
    simp [normalizeDay, hmem]
  · have hmem : d ∉ weekdays := by simpa using h
    simp [normalizeDay, hmem]

/-- C9 witness: the theorem applied at the unrecognized day "Funday". -/
theorem C9_day_normalization_witness :
    weekdays.contains "Funday" = false ∧ normalizeDay "Funday" = none :=
  ⟨by decide, (C9_day_normalization "Funday").2.2.2.2.2.2.2.2 (by decide)⟩

/-- C10: in the OtSo add-entry flow, a submission with a non-empty day and a
positive steps value `n` appends exactly one record at the end of the stored
dataset whose calories are `floor(n * 0.05)`, that is `n / 20` truncated;
a submission with a missing field leaves the dataset unchanged and returns
the fill-in warning. -/
theorem C10_add_entry (n_clicks : ℕ) (d : String) (n : ℤ)
    (cur : List ActivityRecord) (hc : n_clicks ≠ 0) (hd : d ≠ "") (hn : 0 < n) :
    OtSo.add_entry n_clicks (some d) (some n) cur =
      (cur ++ [⟨d, n, ⌊(n : ℚ) / 20⌋⟩], "Added entry") ∧
    OtSo.auto_calories n = ⌊(n : ℚ) / 20⌋ ∧
    OtSo.add_entry n_clicks none (some n) cur = (cur, "Please fill in both fields.") ∧
    OtSo.add_entry n_clicks (some d) none cur = (cur, "Please fill in both fields.") := by
  have hq : (n : ℚ) * (5 / 100) = (n : ℚ) / 20 := by ring
  have h0 : (0 : ℚ) ≤ (n : ℚ) * (5 / 100) := by
    have hn' : (0 : ℚ) ≤ (n : ℚ) := by exact_mod_cast hn.le
    nlinarith
  have hcal : OtSo.auto_calories n = ⌊(n : ℚ) / 20⌋ := by
    rw [OtSo.auto_calories, pyInt, if_pos h0, hq]
  refine ⟨?_, hcal, ?_, ?_⟩
  · show (if n_clicks = 0 then (cur, "")
      else if d = "" ∨ n = 0 then (cur, "Please fill in both fields.")
      else (cur ++ [⟨d, n, OtSo.auto_calories n⟩], "Added entry")) = _
    rw [if_neg hc, if_neg (by push_neg; exact ⟨hd, hn.ne'⟩), hcal]
  · show (if n_clicks = 0 then (cur, "")
      else (cur, "Please fill in both fields.")) = _
    rw [if_neg hc]
  · show (if n_clicks = 0 then (cur, "")
      else (cur, "Please fill in both fields.")) = _
    rw [if_neg hc]

/-- C10 witness: one click, day "Monday", 1000 steps, empty stored list. -/
theorem C10_add_entry_witness :
    (1 : ℕ) ≠ 0 ∧ "Monday" ≠ "" ∧ (0 : ℤ) < 1000 ∧
    (OtSo.add_entry 1 (some "Monday") (some 1000) [] =
       ([⟨"Monday", 1000, ⌊((1000 : ℤ) : ℚ) / 20⌋⟩], "Added entry") ∧
     OtSo.auto_calories 1000 = ⌊((1000 : ℤ) : ℚ) / 20⌋ ∧
     OtSo.add_entry 1 none (some 1000) [] = ([], "Please fill in both fields.") ∧
     OtSo.add_entry 1 (some "Monday") none [] = ([], "Please fill in both fields.")) :=
  ⟨by decide, by decide, by decide,
   by simpa using C10_add_entry 1 "Monday" 1000 [] (by decide) (by decide) (by decide)⟩

end FitnessTracker
